import Mathlib

/-!
Shallow embedding of the Sonicare BLE parser (`src/sonicare_ble/const.py` and
`src/sonicare_ble/parser.py`): advertisement classification, adaptive poll
scheduling, and the characteristic-decoding pipeline, together with theorems
settling the specification's claims about them.

Python byte strings are modelled as `List Nat` (one entry per byte), Python
dicts of mode/state tables as association lists with last-binding-wins lookup
(the semantics of Python `dict` union `|`), monotonic float time as `ℚ`, and
the exception control flow of `async_poll` as an `Except` value threaded
through explicit matches in the source's evaluation order.
-/

namespace SonicareBLE

/-! ## Constants from `const.py` -/

def TIMEOUT_RECENTLY_BRUSHING : ℚ := 30

def NOT_BRUSHING_UPDATE_INTERVAL_SECONDS : ℚ := 20

def BRUSHING_UPDATE_INTERVAL_SECONDS : ℚ := 10

def SONICARE_ADVERTISMENT_UUID : String := "477ea600-a260-11e4-ae37-0002a5d50001"

def CHARACTERISTIC_BATTERY : String := "00002a19-0000-1000-8000-00805f9b34fb"

def CHARACTERISTIC_BRUSHING_TIME : String := "477ea600-a260-11e4-ae37-0002a5d54090"

def CHARACTERISTIC_STATE : String := "477ea600-a260-11e4-ae37-0002a5d54010"

def CHARACTERISTIC_CURRENT_TIME : String := "477ea600-a260-11e4-ae37-0002a5d54050"

def CHARACTERISTIC_MODE : String := "477ea600-a260-11e4-ae37-0002a5d54091"

def CHARACTERISTIC_STRENGTH : String := "477ea600-a260-11e4-ae37-0002a5d540b0"

def CHARACTERISTIC_BRUSH_USAGE : String := "477ea600-a260-11e4-ae37-0002a5d54290"

def CHARACTERISTIC_BRUSH_LIFETIME : String := "477ea600-a260-11e4-ae37-0002a5d54280"

/-! ## Mode/state tables from `parser.py`

Python dicts are embedded as association lists; `dict | dict` (union with the
right operand overriding) becomes list append, and `dict.get` becomes a
last-binding-wins fold, which agrees with Python's override semantics. -/

def dictGet (d : List (Nat × String)) (k : Nat) : Option String :=
  d.foldl (fun acc p => if p.1 = k then some p.2 else acc) none

def KIDS_MODES : List (Nat × String) := [(0, "none")]

def EXPERT_CLEAN_MODES : List (Nat × String) :=
  [(120, "clean"), (200, "gun health"), (180, "deep clean+")]

def DIAMOND_CLEAN_MODES : List (Nat × String) := EXPERT_CLEAN_MODES ++ [(160, "white+")]

def PRESTIGE_MODES : List (Nat × String) := DIAMOND_CLEAN_MODES ++ [(210, "sensitive")]

def STRENGTH : List (Nat × String) := [(0, "low"), (1, "medium"), (2, "high")]

def STATES : List (Nat × String) :=
  [(0, "off"), (1, "standby"), (2, "run"), (3, "charge"), (4, "shutdown"),
   (6, "validate"), (7, "lightsout")]

inductive Models where
  | HX6340
  | HX992X
  | HX9990
deriving DecidableEq

structure ModelDescription where
  device_type : String
  modes : List (Nat × String)
deriving DecidableEq

def DEVICE_TYPES : Models → ModelDescription
  | Models.HX6340 => { device_type := "HX6340", modes := KIDS_MODES }
  | Models.HX992X => { device_type := "HX992X", modes := DIAMOND_CLEAN_MODES }
  | Models.HX9990 => { device_type := "HX9990", modes := PRESTIGE_MODES }

/-! ## Advertisement classification (`SonicareBluetoothDeviceData._start_update`) -/

/-- One advertisement observation as received by `_start_update`:
`home_assistant_bluetooth.BluetoothServiceInfo` restricted to the fields the
source reads. -/
structure BluetoothServiceInfo where
  address : String
  service_uuids : List String
  manufacturer_data : List (Nat × List Nat)
deriving DecidableEq

/-- Python's substring test `need in hay` on strings. -/
def strContains (hay need : String) : Bool :=
  hay.toList.tails.any (fun t => need.toList.isPrefixOf t)

/-- The device-identity fields that `_start_update` can set through
`set_device_manufacturer`, `set_device_type`, `set_device_name`, `set_title`;
`none` means the setter was never called. -/
structure DeviceFields where
  manufacturer : Option String
  device_type : Option String
  name : Option String
  title : Option String
deriving DecidableEq

/-- Embedding of `SonicareBluetoothDeviceData._start_update`.  The external
`bluetooth_data_tools.short_address` is passed in as the function `shortAddr`.
The loop over `service_uuids` testing `SONICARE_ADVERTISMENT_UUID in
service_uuid` becomes `List.any`; when no identifier matches, the method
returns without calling any setter, so the fields are returned unchanged.  The
model is hardcoded to `Models.HX992X` exactly as in the source (the
manufacturer-data branch is commented out there). -/
def _start_update (shortAddr : String → String) (info : BluetoothServiceInfo)
    (st : DeviceFields) : DeviceFields :=
  let correct_device :=
    info.service_uuids.any (fun u => strContains u SONICARE_ADVERTISMENT_UUID)
  if correct_device then
    let model := Models.HX992X
    let model_info := DEVICE_TYPES model
    let name := model_info.device_type ++ " " ++ shortAddr info.address
    { st with
      manufacturer := some "Philips Sonicare"
      device_type := some model_info.device_type
      name := some name
      title := some name }
  else
    st

/-! ## Device state and the poll scheduler -/

/-- A decoded sensor value: integers, labels, or a raw byte payload (the mode
sensor is assigned the raw payload in the source). -/
inductive SensorValue where
  | nat (n : Nat)
  | str (s : String)
  | bytes (b : List Nat)
deriving DecidableEq

/-- The mutable state of one `SonicareBluetoothDeviceData` instance:
`self._brushing`, `self._last_brush`, and the sensors recorded through
`update_sensor`. -/
structure DeviceData where
  brushing : Bool
  last_brush : ℚ
  sensors : List (String × SensorValue)
deriving DecidableEq

/-- `SonicareBluetoothDeviceData.__init__`: brushing flag false, last-brush
timestamp 0.0, no sensors recorded. -/
def initData : DeviceData := { brushing := false, last_brush := 0, sensors := [] }

/-- Embedding of `poll_needed`.  `now` stands for `time.monotonic()`;
`last_poll` is the elapsed time since the last successful poll as passed in by
the host (`None` on bootstrap). -/
def poll_needed (st : DeviceData) (now : ℚ) (last_poll : Option ℚ) : Bool :=
  match last_poll with
  | none => true
  | some lp =>
    let update_interval :=
      if st.brushing || decide (now - st.last_brush ≤ TIMEOUT_RECENTLY_BRUSHING) then
        BRUSHING_UPDATE_INTERVAL_SECONDS
      else
        NOT_BRUSHING_UPDATE_INTERVAL_SECONDS
    decide (lp > update_interval)

/-! ## Characteristic decoding (`async_poll`) -/

/-- Exceptions that the decode section of `async_poll` can raise: a GATT read
for an absent characteristic, `payload[0]` on an empty payload, and the
attribute lookup `int.from_byte`, which does not exist on Python `int`. -/
inductive PollError where
  | missingPayload (char : String)
  | indexError
  | attributeError (attr : String)
deriving DecidableEq

/-- `int.from_bytes(payload, "little")`: unsigned little-endian integer over
the whole payload (first byte least significant). -/
def int_from_bytes (b : List Nat) : Nat :=
  b.foldr (fun x acc => x + 256 * acc) 0

/-- The source calls `int.from_byte(payload, "little")`, but Python `int` has
no attribute `from_byte` (the method is `from_bytes`), so evaluating this call
always raises `AttributeError` and never yields a number. -/
def int_from_byte (_b : List Nat) : Except PollError Nat :=
  .error (.attributeError "int.from_byte")

/-- `BluetoothData.update_sensor`, restricted to what the claims need: record
the (key, value) pair.  All keys written by `async_poll` are distinct, so
appending is equivalent to the library's upsert. -/
def update_sensor (st : DeviceData) (key : String) (v : SensorValue) : DeviceData :=
  { st with sensors := st.sensors ++ [(key, v)] }

/-- Embedding of the decode section of `async_poll`.

The transport is abstracted into `payloads`, an association list from
characteristic UUID to the raw bytes the GATT read would return; a UUID absent
from it makes the read raise, embedded as `PollError.missingPayload`.  The
external `time.strftime`/`time.localtime` formatting is passed in as
`strftime`.  The initial loop over all services only logs and swallows its
exceptions, so it has no effect on the state and is omitted.  The `finally`
block only logs and disconnects, so an exception leaving the `try` block
propagates with the device state unchanged; the `update_sensor` calls all sit
after the `try` statement.  Reads and updates are laid out in the source's
order; the result pairs the final device state with either the snapshot from
`_finish_update` or the exception that escaped. -/
def async_poll (strftime : Nat → String) (payloads : List (String × List Nat))
    (st : DeviceData) : DeviceData × Except PollError (List (String × SensorValue)) :=
  match payloads.lookup CHARACTERISTIC_BRUSH_USAGE with
  | none => (st, .error (.missingPayload CHARACTERISTIC_BRUSH_USAGE))
  | some brush_usage_payload =>
  match payloads.lookup CHARACTERISTIC_BRUSH_LIFETIME with
  | none => (st, .error (.missingPayload CHARACTERISTIC_BRUSH_LIFETIME))
  | some brush_lifetime_payload =>
  match payloads.lookup CHARACTERISTIC_MODE with
  | none => (st, .error (.missingPayload CHARACTERISTIC_MODE))
  | some mode_payload =>
  match payloads.lookup CHARACTERISTIC_STRENGTH with
  | none => (st, .error (.missingPayload CHARACTERISTIC_STRENGTH))
  | some strength_payload =>
  match payloads.lookup CHARACTERISTIC_BATTERY with
  | none => (st, .error (.missingPayload CHARACTERISTIC_BATTERY))
  | some battery_payload =>
  match payloads.lookup CHARACTERISTIC_BRUSHING_TIME with
  | none => (st, .error (.missingPayload CHARACTERISTIC_BRUSHING_TIME))
  | some brushing_time_payload =>
  match payloads.lookup CHARACTERISTIC_STATE with
  | none => (st, .error (.missingPayload CHARACTERISTIC_STATE))
  | some state_payload =>
  match state_payload with
  | [] => (st, .error .indexError)
  | s0 :: _ =>
  let tb_state := (dictGet STATES s0).getD ("unknown state " ++ toString s0)
  match payloads.lookup CHARACTERISTIC_CURRENT_TIME with
  | none => (st, .error (.missingPayload CHARACTERISTIC_CURRENT_TIME))
  | some current_time_payload =>
  let current_time_stamp := strftime (int_from_bytes current_time_payload)
  let st1 := update_sensor st "brushing_time" (.nat (int_from_bytes brushing_time_payload))
  match battery_payload with
  | [] => (st1, .error .indexError)
  | b0 :: _ =>
  let st2 := update_sensor st1 "battery_percent" (.nat b0)
  let st3 := update_sensor st2 "toothbrush_state" (.str tb_state)
  let st4 := update_sensor st3 "current_time" (.str current_time_stamp)
  let st5 := update_sensor st4 "brush_head_lifetime" (.nat (int_from_bytes brush_lifetime_payload))
  match int_from_byte brush_usage_payload with
  | .error e => (st5, .error e)
  | .ok usage_value =>
  let st6 := update_sensor st5 "brush_head_usage" (.nat usage_value)
  let st7 := update_sensor st6 "mode" (.bytes mode_payload)
  match int_from_byte strength_payload with
  | .error e => (st7, .error e)
  | .ok strength_value =>
  let st8 := update_sensor st7 "brush_strength" (.nat strength_value)
  (st8, .ok st8.sensors)

/-- The eight characteristics `async_poll` reads inside its `try` block, in
read order. -/
def requiredChars : List String :=
  [CHARACTERISTIC_BRUSH_USAGE, CHARACTERISTIC_BRUSH_LIFETIME, CHARACTERISTIC_MODE,
   CHARACTERISTIC_STRENGTH, CHARACTERISTIC_BATTERY, CHARACTERISTIC_BRUSHING_TIME,
   CHARACTERISTIC_STATE, CHARACTERISTIC_CURRENT_TIME]

/-- A concrete set of payloads supplying every required characteristic, with
the state payload's single byte left as a parameter. -/
def samplePayloads (stateByte : Nat) : List (String × List Nat) :=
  [(CHARACTERISTIC_BRUSH_USAGE, [3, 0]),
   (CHARACTERISTIC_BRUSH_LIFETIME, [16, 39]),
   (CHARACTERISTIC_MODE, [120]),
   (CHARACTERISTIC_STRENGTH, [0]),
   (CHARACTERISTIC_BATTERY, [85]),
   (CHARACTERISTIC_BRUSHING_TIME, [45, 0]),
   (CHARACTERISTIC_STATE, [stateByte]),
   (CHARACTERISTIC_CURRENT_TIME, [0, 0, 0, 0])]

/-- A payload set supplying every required characteristic, but with the state
characteristic supplied as an empty byte string. -/
def emptyStatePayloads : List (String × List Nat) :=
  [(CHARACTERISTIC_BRUSH_USAGE, [3, 0]),
   (CHARACTERISTIC_BRUSH_LIFETIME, [16, 39]),
   (CHARACTERISTIC_MODE, [120]),
   (CHARACTERISTIC_STRENGTH, [0]),
   (CHARACTERISTIC_BATTERY, [85]),
   (CHARACTERISTIC_BRUSHING_TIME, [45, 0]),
   (CHARACTERISTIC_STATE, []),
   (CHARACTERISTIC_CURRENT_TIME, [0, 0, 0, 0])]

/-- Full characterization of `async_poll` when every required characteristic
payload is supplied, the battery payload is nonempty and the state payload is
nonempty: exactly five sensors are recorded in source order and the decode
then raises the attribute error from `int.from_byte` at the brush-head-usage
conversion, never reaching the mode, strength, or `_finish_update` steps. -/
theorem async_poll_all_present (strftime : Nat → String)
    (payloads : List (String × List Nat)) (st : DeviceData)
    (usageP lifeP modeP strP btP ctP bRest sRest : List Nat) (b0 s0 : Nat)
    (hu : payloads.lookup CHARACTERISTIC_BRUSH_USAGE = some usageP)
    (hl : payloads.lookup CHARACTERISTIC_BRUSH_LIFETIME = some lifeP)
    (hm : payloads.lookup CHARACTERISTIC_MODE = some modeP)
    (hs : payloads.lookup CHARACTERISTIC_STRENGTH = some strP)
    (hb : payloads.lookup CHARACTERISTIC_BATTERY = some (b0 :: bRest))
    (ht : payloads.lookup CHARACTERISTIC_BRUSHING_TIME = some btP)
    (hst : payloads.lookup CHARACTERISTIC_STATE = some (s0 :: sRest))
    (hc : payloads.lookup CHARACTERISTIC_CURRENT_TIME = some ctP) :
    async_poll strftime payloads st =
      ({ st with sensors := st.sensors ++
          [("brushing_time", SensorValue.nat (int_from_bytes btP)),
           ("battery_percent", SensorValue.nat b0),
           ("toothbrush_state",
             SensorValue.str ((dictGet STATES s0).getD ("unknown state " ++ toString s0))),
           ("current_time", SensorValue.str (strftime (int_from_bytes ctP))),
           ("brush_head_lifetime", SensorValue.nat (int_from_bytes lifeP))] },
       .error (.attributeError "int.from_byte")) := by
  simp [async_poll, hu, hl, hm, hs, hb, ht, hst, hc, update_sensor, int_from_byte,
    List.append_assoc]

/-- In every branch of `async_poll` — missing payloads, empty payloads, or the
full run — the brushing flag and last-brush timestamp of the device state are
returned unchanged: no code path of the decoder writes them. -/
theorem async_poll_preserves_brushing (strftime : Nat → String)
    (payloads : List (String × List Nat)) (st : DeviceData) :
    (async_poll strftime payloads st).1.brushing = st.brushing ∧
    (async_poll strftime payloads st).1.last_brush = st.last_brush := by
  simp only [async_poll, int_from_byte]
  repeat' split
  all_goals simp [update_sensor]

/-- C1: `poll_needed` returns true whenever the time since the last successful
poll is `none`; otherwise the applicable interval is the short interval (10)
when the brushing flag is true or the time since the last observed brushing
activity is at most the 30-unit grace threshold, and the long interval (20)
otherwise, and the result is true exactly when the elapsed time strictly
exceeds that interval. -/
theorem poll_needed_schedule (st : DeviceData) (now : ℚ) :
    poll_needed st now none = true ∧
    ∀ lp : ℚ, (poll_needed st now (some lp) = true ↔
      lp > (if st.brushing = true ∨ now - st.last_brush ≤ TIMEOUT_RECENTLY_BRUSHING then
              BRUSHING_UPDATE_INTERVAL_SECONDS
            else NOT_BRUSHING_UPDATE_INTERVAL_SECONDS)) := by
  refine ⟨rfl, fun lp => ?_⟩
  by_cases hb : st.brushing = true
  · simp [poll_needed, hb]
  · simp only [Bool.not_eq_true] at hb
    by_cases ht : now - st.last_brush ≤ TIMEOUT_RECENTLY_BRUSHING
    · simp [poll_needed, hb, ht]
    · simp [poll_needed, hb, ht]

/-- C2: when no advertised service identifier contains the fixed advertisement
UUID as a substring, `_start_update` sets no device field: the device fields
are returned exactly as they were. -/
theorem start_update_not_our_device (shortAddr : String → String)
    (info : BluetoothServiceInfo) (st : DeviceFields)
    (h : info.service_uuids.any (fun u => strContains u SONICARE_ADVERTISMENT_UUID) = false) :
    _start_update shortAddr info st = st := by
  simp [_start_update, h]

/-- Witness for C2 at a concrete observation whose only service identifier is
the standard battery-service UUID, which does not contain the Sonicare
advertisement UUID. -/
theorem start_update_not_our_device_witness :
    _start_update (fun a => a)
      { address := "AA:BB:CC:DD:EE:FF",
        service_uuids := ["0000180f-0000-1000-8000-00805f9b34fb"],
        manufacturer_data := [] }
      { manufacturer := none, device_type := none, name := none, title := none } =
      { manufacturer := none, device_type := none, name := none, title := none } :=
  start_update_not_our_device (fun a => a) _ _ (by rfl)

/-- C3: when some advertised service identifier contains the advertisement
UUID as a substring, `_start_update` sets manufacturer "Philips Sonicare",
fixes the model to `HX992X` (whose mode table is the diamond-clean table), and
sets name and title to the model display name followed by a space and the
shortened address rendering. -/
theorem start_update_our_device (shortAddr : String → String)
    (info : BluetoothServiceInfo) (st : DeviceFields)
    (h : info.service_uuids.any (fun u => strContains u SONICARE_ADVERTISMENT_UUID) = true) :
    (_start_update shortAddr info st).manufacturer = some "Philips Sonicare" ∧
    (_start_update shortAddr info st).device_type = some (DEVICE_TYPES Models.HX992X).device_type ∧
    (DEVICE_TYPES Models.HX992X).device_type = "HX992X" ∧
    (DEVICE_TYPES Models.HX992X).modes = DIAMOND_CLEAN_MODES ∧
    (_start_update shortAddr info st).title =
      some ((DEVICE_TYPES Models.HX992X).device_type ++ " " ++ shortAddr info.address) ∧
    (_start_update shortAddr info st).name =
      some ((DEVICE_TYPES Models.HX992X).device_type ++ " " ++ shortAddr info.address) := by
  refine ⟨?_, ?_, rfl, rfl, ?_, ?_⟩ <;> simp [_start_update, h, DEVICE_TYPES]

/-- Witness for C3 at a concrete observation advertising exactly the Sonicare
advertisement UUID. -/
theorem start_update_our_device_witness :
    (_start_update (fun _ => "EE:FF")
      { address := "AA:BB:CC:DD:EE:FF",
        service_uuids := ["477ea600-a260-11e4-ae37-0002a5d50001"],
        manufacturer_data := [] }
      { manufacturer := none, device_type := none, name := none, title := none }).manufacturer =
      some "Philips Sonicare" :=
  (start_update_our_device (fun _ => "EE:FF") _ _ (by rfl)).1

/-- C9 counterexample: with brushing flag false and the last brushing activity
25 time units in the past (inside the 30-unit grace window), the applicable
interval is the short interval 10, and since 15 strictly exceeds 10,
`poll_needed` with elapsed time 15 returns true — not false as the claim
states. -/
theorem poll_needed_grace_15_counterexample :
    ¬ (poll_needed { brushing := false, last_brush := 75, sensors := [] } 100 (some 15) = false) := by
  norm_num [poll_needed, TIMEOUT_RECENTLY_BRUSHING, BRUSHING_UPDATE_INTERVAL_SECONDS,
    NOT_BRUSHING_UPDATE_INTERVAL_SECONDS]

/-- C9 amended: in the scheduler state with brushing flag false and the last
brushing activity 25 time units in the past (inside the 30-unit grace window,
so the short interval 10 applies), `poll_needed` with elapsed time 15 returns
true and `poll_needed` with elapsed time 31 returns true. -/
theorem poll_needed_grace_amended :
    poll_needed { brushing := false, last_brush := 75, sensors := [] } 100 (some 15) = true ∧
    poll_needed { brushing := false, last_brush := 75, sensors := [] } 100 (some 31) = true := by
  constructor <;>
    norm_num [poll_needed, TIMEOUT_RECENTLY_BRUSHING, BRUSHING_UPDATE_INTERVAL_SECONDS,
      NOT_BRUSHING_UPDATE_INTERVAL_SECONDS]

/-- Analysis of a successful lookup in the base expert-clean mode table: the
key and value are one of its three bindings. -/
theorem expert_clean_lookup (k : Nat) (v : String)
    (h : dictGet EXPERT_CLEAN_MODES k = some v) :
    (k = 120 ∧ v = "clean") ∨ (k = 200 ∧ v = "gun health") ∨ (k = 180 ∧ v = "deep clean+") := by
  simp only [dictGet, EXPERT_CLEAN_MODES, List.foldl] at h
  split_ifs at h with h1 h2 h3 <;> simp_all

/-- C10: the prestige table maps 200 to "gun health", and more generally every
binding of the base expert-clean table is preserved by both superset
extensions: the diamond-clean table and the prestige table give the same value
on every key the base table defines. -/
theorem prestige_mode_inheritance :
    dictGet PRESTIGE_MODES 200 = some "gun health" ∧
    ∀ k v, dictGet EXPERT_CLEAN_MODES k = some v →
      dictGet DIAMOND_CLEAN_MODES k = some v ∧ dictGet PRESTIGE_MODES k = some v := by
  refine ⟨rfl, fun k v h => ?_⟩
  rcases expert_clean_lookup k v h with ⟨hk, hv⟩ | ⟨hk, hv⟩ | ⟨hk, hv⟩ <;>
    subst hk <;> subst hv <;> exact ⟨rfl, rfl⟩

/-- Witness for C10: applying the inheritance theorem at key 200 with value
"gun health". -/
theorem prestige_mode_inheritance_witness :
    dictGet DIAMOND_CLEAN_MODES 200 = some "gun health" ∧
    dictGet PRESTIGE_MODES 200 = some "gun health" :=
  prestige_mode_inheritance.2 200 "gun health" (by rfl)

/-- C4: decoding a state payload with first byte 2 records the toothbrush
state label "run", yet the brushing flag and last-brush timestamp are returned
unchanged in every branch of `async_poll` — no code path of the decoder writes
`self._brushing` or `self._last_brush`, contradicting the source's own comment
that the flag tracks current brushing. -/
theorem run_state_brushing_flag_not_set :
    (async_poll (fun n => toString n) (samplePayloads 2) initData).1.sensors.lookup
        "toothbrush_state" = some (SensorValue.str "run") ∧
    ∀ (strftime : Nat → String) (payloads : List (String × List Nat)) (st : DeviceData),
      (async_poll strftime payloads st).1.brushing = st.brushing ∧
      (async_poll strftime payloads st).1.last_brush = st.last_brush :=
  ⟨rfl, fun strftime payloads st => async_poll_preserves_brushing strftime payloads st⟩

/-- C5 counterexample: with every required characteristic payload supplied but
the state payload supplied as an empty byte string, the decode raises the
index error from `state_payload[0]` with zero sensors updated — not the
`int.from_byte` attribute error after earlier sensors were already updated, as
the claim states for every all-supplied decode. -/
theorem async_poll_empty_state_counterexample :
    requiredChars.all (fun c => (emptyStatePayloads.lookup c).isSome) = true ∧
    async_poll (fun n => toString n) emptyStatePayloads initData =
      (initData, .error .indexError) ∧
    (async_poll (fun n => toString n) emptyStatePayloads initData).1.sensors.length = 0 ∧
    ¬ (async_poll (fun n => toString n) emptyStatePayloads initData).2 =
        .error (.attributeError "int.from_byte") := by
  refine ⟨rfl, rfl, rfl, ?_⟩
  intro hcontra
  rw [show (async_poll (fun n => toString n) emptyStatePayloads initData).2 =
    .error .indexError from rfl] at hcontra
  simp at hcontra

/-- C5 amended: for every decode with all required characteristic payloads
supplied, the decode never returns a sensor snapshot.  When the state and
battery payloads are nonempty, the `int.from_byte` attribute error is raised
at the brush-head-usage conversion after exactly five sensors were recorded
and `_finish_update` is never reached; when the state payload is supplied
empty the decode raises the index error with no sensors recorded, and when
only the battery payload is supplied empty it raises the index error after the
single brushing-time sensor was recorded. -/
theorem async_poll_never_snapshot (strftime : Nat → String)
    (payloads : List (String × List Nat)) (st : DeviceData)
    (usageP lifeP modeP strP batP btP stP ctP : List Nat)
    (hu : payloads.lookup CHARACTERISTIC_BRUSH_USAGE = some usageP)
    (hl : payloads.lookup CHARACTERISTIC_BRUSH_LIFETIME = some lifeP)
    (hm : payloads.lookup CHARACTERISTIC_MODE = some modeP)
    (hs : payloads.lookup CHARACTERISTIC_STRENGTH = some strP)
    (hb : payloads.lookup CHARACTERISTIC_BATTERY = some batP)
    (ht : payloads.lookup CHARACTERISTIC_BRUSHING_TIME = some btP)
    (hst : payloads.lookup CHARACTERISTIC_STATE = some stP)
    (hc : payloads.lookup CHARACTERISTIC_CURRENT_TIME = some ctP) :
    (∀ snap, (async_poll strftime payloads st).2 ≠ .ok snap) ∧
    (stP = [] → async_poll strftime payloads st = (st, .error .indexError)) ∧
    (stP ≠ [] → batP = [] →
      async_poll strftime payloads st =
        ({ st with sensors :=
            st.sensors ++ [("brushing_time", SensorValue.nat (int_from_bytes btP))] },
         .error .indexError)) ∧
    (stP ≠ [] → batP ≠ [] →
      (async_poll strftime payloads st).2 = .error (.attributeError "int.from_byte") ∧
      (async_poll strftime payloads st).1.sensors.length = st.sensors.length + 5) := by
  rcases stP with _ | ⟨s0, sRest⟩
  · have heq : async_poll strftime payloads st = (st, .error .indexError) := by
      simp [async_poll, hu, hl, hm, hs, hb, ht, hst, hc]
    rw [heq]
    exact ⟨fun snap => by simp, fun _ => rfl, fun h => absurd rfl h, fun h => absurd rfl h⟩
  · rcases batP with _ | ⟨b0, bRest⟩
    · have heq : async_poll strftime payloads st =
        ({ st with sensors :=
            st.sensors ++ [("brushing_time", SensorValue.nat (int_from_bytes btP))] },
         .error .indexError) := by
        simp [async_poll, hu, hl, hm, hs, hb, ht, hst, hc, update_sensor]
      rw [heq]
      exact ⟨fun snap => by simp, fun h => absurd h (List.cons_ne_nil s0 sRest),
        fun _ _ => rfl, fun _ h => absurd rfl h⟩
    · have heq := async_poll_all_present strftime payloads st usageP lifeP modeP strP btP ctP
        bRest sRest b0 s0 hu hl hm hs hb ht hst hc
      rw [heq]
      exact ⟨fun snap => by simp, fun h => absurd h (List.cons_ne_nil s0 sRest),
        fun _ h => absurd h (List.cons_ne_nil b0 bRest), fun _ _ => ⟨rfl, by simp⟩⟩

/-- Witness for the amended C5 at the concrete full payload set with state
byte 2 and battery byte 85, both nonempty. -/
theorem async_poll_never_snapshot_witness :
    (async_poll (fun n => toString n) (samplePayloads 2) initData).2 =
      .error (.attributeError "int.from_byte") ∧
    (async_poll (fun n => toString n) (samplePayloads 2) initData).1.sensors.length =
      initData.sensors.length + 5 :=
  (async_poll_never_snapshot (fun n => toString n) (samplePayloads 2) initData
    [3, 0] [16, 39] [120] [0] [85] [45, 0] [2] [0, 0, 0, 0]
    rfl rfl rfl rfl rfl rfl rfl rfl).2.2.2 (by decide) (by decide)

/-- C6 counterexample: at a decode whose mode payload is the single byte 120
(mapped to "clean" in the diamond-clean table) and whose strength payload is
the single byte 0 (mapped to "low" in the strength table), the decode records
no mode sensor at all and no strength sensor at all — contrary to the claim
that their values are table lookups of the first payload byte — because the
brush-head-usage conversion raises before either update is reached. -/
theorem mode_strength_lookup_counterexample :
    dictGet DIAMOND_CLEAN_MODES 120 = some "clean" ∧
    dictGet STRENGTH 0 = some "low" ∧
    (async_poll (fun n => toString n) (samplePayloads 2) initData).1.sensors.lookup "mode" =
      none ∧
    (async_poll (fun n => toString n) (samplePayloads 2) initData).1.sensors.lookup
      "brush_strength" = none ∧
    (async_poll (fun n => toString n) (samplePayloads 2) initData).2 =
      .error (.attributeError "int.from_byte") :=
  ⟨rfl, rfl, rfl, rfl, rfl⟩

/-- C6 amended: for every decode with all required payloads supplied, no mode
and no strength sensor value is ever produced — the recorded mode entries and
strength entries of the device state are exactly those present before the
decode — because the decode always fails before reaching the mode and strength
updates: with the `int.from_byte` attribute error at the brush-head-usage
conversion when the state and battery payloads are nonempty, and with the
index error even earlier when the state or battery payload is supplied empty.
Neither the three-level strength table nor the active model's mode table is
consulted by the decoder. -/
theorem mode_strength_never_produced (strftime : Nat → String)
    (payloads : List (String × List Nat)) (st : DeviceData)
    (usageP lifeP modeP strP batP btP stP ctP : List Nat)
    (hu : payloads.lookup CHARACTERISTIC_BRUSH_USAGE = some usageP)
    (hl : payloads.lookup CHARACTERISTIC_BRUSH_LIFETIME = some lifeP)
    (hm : payloads.lookup CHARACTERISTIC_MODE = some modeP)
    (hs : payloads.lookup CHARACTERISTIC_STRENGTH = some strP)
    (hb : payloads.lookup CHARACTERISTIC_BATTERY = some batP)
    (ht : payloads.lookup CHARACTERISTIC_BRUSHING_TIME = some btP)
    (hst : payloads.lookup CHARACTERISTIC_STATE = some stP)
    (hc : payloads.lookup CHARACTERISTIC_CURRENT_TIME = some ctP) :
    (∀ v, (("mode", v) ∈ (async_poll strftime payloads st).1.sensors ↔
        ("mode", v) ∈ st.sensors)) ∧
    (∀ v, (("brush_strength", v) ∈ (async_poll strftime payloads st).1.sensors ↔
        ("brush_strength", v) ∈ st.sensors)) ∧
    (stP ≠ [] → batP ≠ [] →
      (async_poll strftime payloads st).2 = .error (.attributeError "int.from_byte")) ∧
    (stP = [] ∨ batP = [] → (async_poll strftime payloads st).2 = .error .indexError) := by
  rcases stP with _ | ⟨s0, sRest⟩
  · have heq : async_poll strftime payloads st = (st, .error .indexError) := by
      simp [async_poll, hu, hl, hm, hs, hb, ht, hst, hc]
    rw [heq]
    exact ⟨fun v => Iff.rfl, fun v => Iff.rfl, fun h => absurd rfl h, fun _ => rfl⟩
  · rcases batP with _ | ⟨b0, bRest⟩
    · have heq : async_poll strftime payloads st =
        ({ st with sensors :=
            st.sensors ++ [("brushing_time", SensorValue.nat (int_from_bytes btP))] },
         .error .indexError) := by
        simp [async_poll, hu, hl, hm, hs, hb, ht, hst, hc, update_sensor]
      rw [heq]
      refine ⟨fun v => ?_, fun v => ?_, fun _ h => absurd rfl h, fun _ => rfl⟩ <;> simp
    · have heq := async_poll_all_present strftime payloads st usageP lifeP modeP strP btP ctP
        bRest sRest b0 s0 hu hl hm hs hb ht hst hc
      rw [heq]
      refine ⟨fun v => ?_, fun v => ?_, fun _ _ => rfl, fun h => ?_⟩
      · simp
      · simp
      · rcases h with h | h
        · exact absurd h (List.cons_ne_nil s0 sRest)
        · exact absurd h (List.cons_ne_nil b0 bRest)

/-- Witness for the amended C6 at the concrete full payload set: no mode
sensor entry appears (the membership is unchanged from the empty initial
state) and the decode ends in the `int.from_byte` attribute error. -/
theorem mode_strength_never_produced_witness :
    (("mode", SensorValue.bytes [120]) ∈
        (async_poll (fun n => toString n) (samplePayloads 2) initData).1.sensors ↔
      ("mode", SensorValue.bytes [120]) ∈ initData.sensors) ∧
    (("brush_strength", SensorValue.str "low") ∈
        (async_poll (fun n => toString n) (samplePayloads 2) initData).1.sensors ↔
      ("brush_strength", SensorValue.str "low") ∈ initData.sensors) ∧
    (async_poll (fun n => toString n) (samplePayloads 2) initData).2 =
      .error (.attributeError "int.from_byte") :=
  ⟨(mode_strength_never_produced (fun n => toString n) (samplePayloads 2) initData
      [3, 0] [16, 39] [120] [0] [85] [45, 0] [2] [0, 0, 0, 0]
      rfl rfl rfl rfl rfl rfl rfl rfl).1 (SensorValue.bytes [120]),
   (mode_strength_never_produced (fun n => toString n) (samplePayloads 2) initData
      [3, 0] [16, 39] [120] [0] [85] [45, 0] [2] [0, 0, 0, 0]
      rfl rfl rfl rfl rfl rfl rfl rfl).2.1 (SensorValue.str "low"),
   (mode_strength_never_produced (fun n => toString n) (samplePayloads 2) initData
      [3, 0] [16, 39] [120] [0] [85] [45, 0] [2] [0, 0, 0, 0]
      rfl rfl rfl rfl rfl rfl rfl rfl).2.2.1 (by decide) (by decide)⟩

/-- C8: whenever every required payload is supplied and the state payload's
first byte `s0` has no entry in the state table, the state resolution does not
fail: the toothbrush-state sensor is recorded with the fallback label
"unknown state {s0}", and the decode's eventual error is the independent
`int.from_byte` attribute error, not a failure of the state lookup. -/
theorem unknown_state_code_label (strftime : Nat → String)
    (payloads : List (String × List Nat)) (st : DeviceData)
    (usageP lifeP modeP strP btP ctP bRest sRest : List Nat) (b0 s0 : Nat)
    (hu : payloads.lookup CHARACTERISTIC_BRUSH_USAGE = some usageP)
    (hl : payloads.lookup CHARACTERISTIC_BRUSH_LIFETIME = some lifeP)
    (hm : payloads.lookup CHARACTERISTIC_MODE = some modeP)
    (hs : payloads.lookup CHARACTERISTIC_STRENGTH = some strP)
    (hb : payloads.lookup CHARACTERISTIC_BATTERY = some (b0 :: bRest))
    (ht : payloads.lookup CHARACTERISTIC_BRUSHING_TIME = some btP)
    (hst : payloads.lookup CHARACTERISTIC_STATE = some (s0 :: sRest))
    (hc : payloads.lookup CHARACTERISTIC_CURRENT_TIME = some ctP)
    (hmiss : dictGet STATES s0 = none) :
    ("toothbrush_state", SensorValue.str ("unknown state " ++ toString s0)) ∈
      (async_poll strftime payloads st).1.sensors ∧
    (async_poll strftime payloads st).2 = .error (.attributeError "int.from_byte") := by
  rw [async_poll_all_present strftime payloads st usageP lifeP modeP strP btP ctP bRest sRest
    b0 s0 hu hl hm hs hb ht hst hc]
  simp [hmiss]

/-- Witness for C8 at the concrete full payload set with the unmapped state
byte 9. -/
theorem unknown_state_code_label_witness :
    ("toothbrush_state", SensorValue.str "unknown state 9") ∈
      (async_poll (fun n => toString n) (samplePayloads 9) initData).1.sensors ∧
    (async_poll (fun n => toString n) (samplePayloads 9) initData).2 =
      .error (.attributeError "int.from_byte") :=
  unknown_state_code_label (fun n => toString n) (samplePayloads 9) initData
    [3, 0] [16, 39] [120] [0] [45, 0] [0, 0, 0, 0] [] [] 85 9
    rfl rfl rfl rfl rfl rfl rfl rfl rfl

end SonicareBLE
